import Mathlib

/-!
Verification of the HurricaneDamageDetection model-serving shim
(`inference_server.py`) against its natural-language specification.

The Python service is embedded shallowly:

* JSON values become an inductive `Json`; Python `dict` lookups become
  association-list lookups on `Json.obj`.
* The filesystem becomes a map from paths to `Option FileData`, where
  `FileData` records whether the file's contents parse as JSON
  (`json.load` raises `JSONDecodeError` on anything else, which
  `_load_json` does not catch — it catches only `FileNotFoundError`).
* Python exceptions become `Except` values; the exception's message text
  is carried so that the "verbatim message" behaviour of the handlers is
  visible.
* The external collaborators (PIL decoding/resizing, the keras model)
  are parameters: `decode`, `resize` and `Model` are supplied to the
  embedded functions, matching the spec's stance that they are black
  boxes.  Pixel values and the model's scalar output are rationals.
-/

set_option autoImplicit false

namespace HurricaneServer

/-- Raw byte payloads (`bytes` in Python): a list of byte values. -/
abbrev Bytes := List Nat

/-- JSON values as produced by `json.load`. -/
inductive Json where
  | null : Json
  | bool : Bool → Json
  | num : ℚ → Json
  | str : String → Json
  | arr : List Json → Json
  | obj : List (String × Json) → Json

/-- First-match lookup in an association list of JSON object members. -/
def lookupKey : List (String × Json) → String → Option Json
  | [], _ => none
  | (k', v) :: rest, k => if k' = k then some v else lookupKey rest k

/-- Python `key in d` / `d[key]` on a dict: returns the member when the
value is an object holding the key, `none` otherwise. -/
def Json.getKey : Json → String → Option Json
  | .obj kvs, k => lookupKey kvs k
  | _, _ => none

/-- Python `d.get(key, default)`: succeeds only on a dict (on any other
value `.get` raises `AttributeError`, carried here as the message). -/
def Json.dictGet : Json → String → Json → Except String Json
  | .obj kvs, k, d => .ok ((lookupKey kvs k).getD d)
  | _, _, _ => .error "object has no attribute get"

/-- Interpreting a JSON number as a Python non-negative `int`
(the form the `img_size` entries must take to be usable as pixel
dimensions). -/
def Json.asNat? : Json → Option Nat
  | .num q => if q.den = 1 ∧ 0 ≤ q.num then some q.num.toNat else none
  | _ => none

/-- Contents of a file on disk, as seen by `json.load`: either contents
that parse to a JSON value, or contents that do not (raising
`JSONDecodeError`).  The model-weights file is `invalidData` in
practice; it is never parsed as JSON. -/
inductive FileData where
  | jsonData : Json → FileData
  | invalidData : FileData

/-- The filesystem: maps a path to its contents, or `none` when the
file is absent. -/
abbrev FS := String → Option FileData

/-- The three artifact paths resolved by `_default_paths` (environment
overrides and defaults are out of scope; only the resolved paths
matter). -/
structure Paths where
  modelPath : String
  prepPath : String
  cardPath : String

/-- Python exceptions that startup can raise, with their message text. -/
inductive PyError where
  | fileNotFound : String → PyError
  | valueError : String → PyError
  | jsonDecode : String → PyError
  | typeError : String → PyError
  | attributeError : String → PyError
deriving DecidableEq, Repr

/-- Embedding of `_load_json(path, default)`: catches only
`FileNotFoundError` (returning `{}` when `default is None`, else the
default); contents that fail to parse propagate `JSONDecodeError`. -/
def load_json (fs : FS) (path : String) (default : Option Json) :
    Except PyError Json :=
  match fs path with
  | none => .ok (default.getD (Json.obj []))
  | some (.jsonData j) => .ok j
  | some .invalidData => .error (.jsonDecode ("Expecting value: " ++ path))

/-- The default model card substituted when `model_card.json` is absent. -/
def defaultCard : Json :=
  .obj [("best_model_name", .str "Unknown"), ("test_auc", .null)]

/-- An in-memory RGB image as produced by
`Image.open(...).convert("RGB")`: a width, a height, and a pixel
function `pix x y c` giving channel `c` of the pixel in column `x`,
row `y` (PIL's coordinate convention). -/
structure Img where
  width : Nat
  height : Nat
  pix : Nat → Nat → Fin 3 → ℚ

/-- An image is constant when every in-bounds pixel channel holds `p`. -/
def Img.isConst (img : Img) (p : ℚ) : Prop :=
  ∀ x y c, x < img.width → y < img.height → img.pix x y c = p

/-- The single-item batch `array[None, ...]` handed to the model:
`np.asarray` of a PIL image has shape `(height, width, 3)`, indexed
`val row col channel`; the leading batch axis of extent 1 is implicit
and recorded by `Batch.shape`. -/
structure Batch where
  height : Nat
  width : Nat
  val : Nat → Nat → Fin 3 → ℚ

/-- The numpy shape `[1, height, width, 3]` of the batch. -/
def Batch.shape (b : Batch) : List Nat := [1, b.height, b.width, 3]

/-- The batch built from a (resized) image: each float32 pixel value
multiplied by `scale`, rows indexed before columns. -/
def scaledBatch (r : Img) (scale : ℚ) : Batch :=
  { height := r.height, width := r.width,
    val := fun row col ch => r.pix col row ch * scale }

/-- The opaque keras model: maps a batch to its single scalar output,
or fails (any failure during `model.predict` is an exception whose
message is carried). -/
abbrev Model := Batch → Except String ℚ

/-- The external PIL operations `preprocess_bytes` relies on:
`decode raw` is `Image.open(io.BytesIO(raw)).convert("RGB")` (failing
with the exception's message on undecodable bytes), and
`resize img w h` is `img.resize((w, h))`. -/
structure PILDeps where
  decode : Bytes → Except String Img
  resize : Img → Nat → Nat → Img

/-- Embedding of `preprocess_bytes(raw, width, height, scale)`. -/
def preprocess_bytes (deps : PILDeps) (raw : Bytes)
    (width height : Nat) (scale : ℚ) : Except String Batch := do
  let img ← deps.decode raw
  pure (scaledBatch (deps.resize img width height) scale)

/-- Embedding of `predict_label_from_array(model, batch)`:
`"damage" if prob >= 0.5 else "no_damage"`. -/
def predict_label_from_array (model : Model) (batch : Batch) :
    Except String String := do
  let prob ← model batch
  pure (if (1 : ℚ)/2 ≤ prob then "damage" else "no_damage")

/-- Embedding of `load_artifacts()`, following the source line by line:
existence checks for the model and preprocessing-config files (lines
50–53), model load (line 56), `_load_json` of the config plus the
key-presence check (lines 58–60), `_load_json` of the card with the
default (line 62), the `img_size` unpack (line 64), and the
startup-log `card.get` calls (lines 66–67).  `loadModel` stands for
`keras.models.load_model` applied to the model file's contents. -/
def load_artifacts (fs : FS) (loadModel : FileData → Model) (paths : Paths) :
    Except PyError (Model × Json × Json) := do
  match fs paths.modelPath with
  | none => throw (.fileNotFound ("Missing model at " ++ paths.modelPath))
  | some modelData =>
    match fs paths.prepPath with
    | none =>
        throw (.fileNotFound ("Missing preprocessing.json at " ++ paths.prepPath))
    | some _ =>
      let model := loadModel modelData
      let prep ← load_json fs paths.prepPath none
      if (prep.getKey "img_size").isNone ∨ (prep.getKey "scale").isNone then
        throw (.valueError "preprocessing.json must contain 'img_size' and 'scale'")
      let card ← load_json fs paths.cardPath (some defaultCard)
      match prep.getKey "img_size" with
      | some (.arr [_, _]) =>
          match card.dictGet "best_model_name" (.str "Unknown"),
                card.dictGet "test_auc" .null with
          | .ok _, .ok _ => pure (model, prep, card)
          | .error m, _ => throw (.attributeError m)
          | _, .error m => throw (.attributeError m)
      | _ => throw (.typeError "cannot unpack img_size")

/-- The state `create_app` installs in `app.config` after a successful
`load_artifacts`: the model handle and the two loaded JSON documents. -/
structure AppState where
  model : Model
  prep : Json
  card : Json

/-- Embedding of `create_app()` up to route registration: the app
exists exactly when `load_artifacts` succeeds; an exception aborts the
process before any route is served. -/
def create_app (fs : FS) (loadModel : FileData → Model) (paths : Paths) :
    Except PyError AppState :=
  (load_artifacts fs loadModel paths).map fun t => ⟨t.1, t.2.1, t.2.2⟩

/-- A POST request as the handler sees it: the multipart file fields
(`request.files`, first match wins) and the raw body
(`request.get_data()`). -/
structure Request where
  files : List (String × Bytes)
  body : Bytes

/-- First-match lookup among the multipart file fields. -/
def lookupBytes : List (String × Bytes) → String → Option Bytes
  | [], _ => none
  | (k', v) :: rest, k => if k' = k then some v else lookupBytes rest k

/-- Embedding of `get_request_image_bytes()`: the multipart field
`image` when present (its bytes, even if empty), else the raw body. -/
def get_request_image_bytes (req : Request) : Bytes :=
  match lookupBytes req.files "image" with
  | some b => b
  | none => req.body

/-- An HTTP response: status code and JSON body (as built by
`jsonify`). -/
structure HttpResponse where
  status : Nat
  body : Json

/-- The body of the `try:` block of the `/inference` handler (lines
125–128): read `img_size` and `scale` from the loaded config, unpack
them, preprocess, and score.  Any raised exception surfaces as
`.error` with its message. -/
def inference_try (st : AppState) (deps : PILDeps) (raw : Bytes) :
    Except String String := do
  let (wj, hj) ← match st.prep.getKey "img_size" with
    | some (.arr [a, b]) => Except.ok (a, b)
    | _ => Except.error "cannot unpack img_size"
  let s ← match st.prep.getKey "scale" with
    | some sj => Except.ok sj
    | none => Except.error "KeyError: scale"
  let w ← match wj.asNat? with
    | some n => Except.ok n
    | none => Except.error "img_size width is not a valid integer"
  let h ← match hj.asNat? with
    | some n => Except.ok n
    | none => Except.error "img_size height is not a valid integer"
  let q ← match s with
    | .num q => Except.ok q
    | _ => Except.error "scale is not numeric"
  let batch ← preprocess_bytes deps raw w h q
  predict_label_from_array st.model batch

/-- Embedding of the `/inference` route handler: empty payload check
(`if not raw`) producing the 400, then the `try/except` producing
either the 200 prediction or the 500 whose body carries the
exception's message verbatim. -/
def inference (st : AppState) (deps : PILDeps) (req : Request) :
    HttpResponse :=
  let raw := get_request_image_bytes req
  if raw = [] then
    ⟨400, .obj [("error", .str "Empty request body")]⟩
  else
    match inference_try st deps raw with
    | .ok label => ⟨200, .obj [("prediction", .str label)]⟩
    | .error msg => ⟨500, .obj [("error", .str msg)]⟩

/-- Embedding of the `/summary` route handler (lines 106–116): unpack
`img_size`, read `scale`, and build the metadata object.  The handler
has no `try/except`; a failed unpack or a non-dict card raises, which
is the `.error` case. -/
def summary (st : AppState) : Except String HttpResponse := do
  let (wj, hj) ← match st.prep.getKey "img_size" with
    | some (.arr [a, b]) => Except.ok (a, b)
    | _ => Except.error "cannot unpack img_size"
  let s ← match st.prep.getKey "scale" with
    | some sj => Except.ok sj
    | none => Except.error "KeyError: scale"
  let name ← st.card.dictGet "best_model_name" (.str "Unknown")
  let auc ← st.card.dictGet "test_auc" .null
  pure ⟨200, .obj [
    ("model_name", name),
    ("test_auc", auc),
    ("input_size", .arr [wj, hj, .num 3]),
    ("classes", .arr [.str "no_damage", .str "damage"]),
    ("preprocessing", .obj [("resize", .arr [wj, hj]), ("scale", s)])]⟩

/-! Concrete instances used by witnesses and counterexamples. -/

/-- A loaded preprocessing config with `img_size = [2, 3]`, `scale = 2`. -/
def exPrep : Json :=
  .obj [("img_size", .arr [.num 2, .num 3]), ("scale", .num 2)]

/-- A model whose scalar output is exactly the threshold value 0.5. -/
def exModelHalf : Model := fun _ => .ok (1/2)

/-- A model whose scalar output is always 1. -/
def exModelOne : Model := fun _ => .ok 1

/-- A model whose scalar output is always 0. -/
def exModelZero : Model := fun _ => .ok 0

/-- A model that always fails with a fixed message. -/
def exModelErr : Model := fun _ => .error "predict blew up"

/-- PIL stand-in whose decoder yields a 1x1 image of constant value 6
and whose resizer extends an image to the requested size by repeating
its top-left pixel (so constant images stay constant). -/
def exDeps : PILDeps :=
  { decode := fun _ => .ok ⟨1, 1, fun _ _ _ => 6⟩,
    resize := fun img w h => ⟨w, h, fun _ _ c => img.pix 0 0 c⟩ }

/-- PIL stand-in whose decoder always fails, as on undecodable bytes. -/
def exDepsErr : PILDeps :=
  { decode := fun _ => .error "cannot identify image file",
    resize := fun img w h => ⟨w, h, fun _ _ c => img.pix 0 0 c⟩ }

/-- Artifact paths used by the startup witnesses. -/
def exPaths : Paths := ⟨"model.keras", "preprocessing.json", "model_card.json"⟩

/-- A keras loader stand-in: every model file loads to `exModelOne`. -/
def exLoadModel : FileData → Model := fun _ => exModelOne

/-- A filesystem with no files at all. -/
def fsEmpty : FS := fun _ => none

/-- A filesystem with only the model file. -/
def fsOnlyModel : FS := fun p =>
  if p = "model.keras" then some .invalidData else none

/-- A filesystem whose preprocessing config parses but lacks both
required keys. -/
def fsBadPrepKeys : FS := fun p =>
  if p = "model.keras" then some .invalidData
  else if p = "preprocessing.json" then some (.jsonData (.obj [])) else none

/-- A filesystem with valid model and config and no model card. -/
def fsNoCard : FS := fun p =>
  if p = "model.keras" then some .invalidData
  else if p = "preprocessing.json" then some (.jsonData exPrep) else none

/-- A filesystem whose model card file exists but does not parse as
JSON. -/
def fsBadCard : FS := fun p =>
  if p = "model.keras" then some .invalidData
  else if p = "preprocessing.json" then some (.jsonData exPrep)
  else if p = "model_card.json" then some .invalidData else none

/-- The preprocessing config `prep` was loaded with `img_size` equal to
the two-integer array `[W, H]` and `scale` equal to `s`. -/
def validPrep (prep : Json) (W H : Nat) (s : ℚ) : Prop :=
  prep.getKey "img_size" = some (.arr [.num (W : ℚ), .num (H : ℚ)]) ∧
  prep.getKey "scale" = some (.num s)

end HurricaneServer

namespace HurricaneServer

/-! Helper lemmas. -/

theorem asNat_natCast (n : Nat) : Json.asNat? (.num (n : ℚ)) = some n := by
  simp [Json.asNat?]

/-- On a validly configured app state, the `/inference` try-block is
preprocessing followed by scoring. -/
theorem inference_try_eq (st : AppState) (deps : PILDeps) (raw : Bytes)
    (W H : Nat) (s : ℚ) (hv : validPrep st.prep W H s) :
    inference_try st deps raw =
      (preprocess_bytes deps raw W H s).bind (predict_label_from_array st.model) := by
  obtain ⟨h1, h2⟩ := hv
  simp [inference_try, h1, h2, asNat_natCast, preprocess_bytes, bind, Except.bind,
    predict_label_from_array]

/-- C3: when the multipart field `image` is absent and the raw body is
empty, `/inference` answers 400 with body `{"error": "Empty request
body"}`.  The model is not invoked: the response is this constant for
every app state (hence every model) and every PIL dependency. -/
theorem C3_empty_body_400 (st : AppState) (deps : PILDeps) (req : Request)
    (habs : lookupBytes req.files "image" = none) (hemp : req.body = []) :
    inference st deps req = ⟨400, .obj [("error", .str "Empty request body")]⟩ := by
  simp [inference, get_request_image_bytes, habs, hemp]

theorem C3_empty_body_400_witness :
    inference ⟨exModelErr, exPrep, defaultCard⟩ exDepsErr ⟨[], []⟩ =
      ⟨400, .obj [("error", .str "Empty request body")]⟩ :=
  C3_empty_body_400 _ _ _ rfl rfl

/-- C10: a present but zero-byte multipart `image` field together with
an empty raw body is caught by the `if not raw` emptiness check, which
precedes any decode attempt: the answer is the 400, for every PIL
dependency (so no 500 decode error can arise). -/
theorem C10_empty_multipart_400 (st : AppState) (deps : PILDeps) (req : Request)
    (hfield : lookupBytes req.files "image" = some [])
    (_hemp : req.body = []) :
    inference st deps req = ⟨400, .obj [("error", .str "Empty request body")]⟩ := by
  simp [inference, get_request_image_bytes, hfield]

theorem C10_empty_multipart_400_witness :
    inference ⟨exModelErr, exPrep, defaultCard⟩ exDepsErr ⟨[("image", [])], []⟩ =
      ⟨400, .obj [("error", .str "Empty request body")]⟩ :=
  C10_empty_multipart_400 _ _ _ (by simp [lookupBytes]) rfl

/-- C9: when the multipart field `image` is present and the raw body is
non-empty, the scored bytes are exactly the multipart field's bytes,
and the response is unchanged under any replacement of the raw body. -/
theorem C9_multipart_priority (st : AppState) (deps : PILDeps) (req : Request)
    (b : Bytes) (hfield : lookupBytes req.files "image" = some b)
    (_hbody : req.body ≠ []) :
    get_request_image_bytes req = b ∧
    ∀ body2 : Bytes,
      inference st deps ⟨req.files, body2⟩ = inference st deps req := by
  constructor
  · simp [get_request_image_bytes, hfield]
  · intro body2
    simp [inference, get_request_image_bytes, hfield]

theorem C9_multipart_priority_witness :
    get_request_image_bytes ⟨[("image", [7, 8])], [9]⟩ = [7, 8] ∧
    ∀ body2 : Bytes,
      inference ⟨exModelOne, exPrep, defaultCard⟩ exDeps ⟨[("image", [7, 8])], body2⟩ =
        inference ⟨exModelOne, exPrep, defaultCard⟩ exDeps ⟨[("image", [7, 8])], [9]⟩ :=
  C9_multipart_priority _ _ ⟨[("image", [7, 8])], [9]⟩ [7, 8]
    (by simp [lookupBytes]) (by simp)

/-- C8: the `/inference` handler is a pure function of the extracted
image bytes: two requests carrying the same bytes get the same
response from the same app state and dependencies. -/
theorem C8_deterministic (st : AppState) (deps : PILDeps)
    (req1 req2 : Request)
    (h : get_request_image_bytes req1 = get_request_image_bytes req2) :
    inference st deps req1 = inference st deps req2 := by
  simp [inference, h]

theorem C8_deterministic_witness :
    inference ⟨exModelOne, exPrep, defaultCard⟩ exDeps ⟨[("image", [5])], []⟩ =
      inference ⟨exModelOne, exPrep, defaultCard⟩ exDeps ⟨[], [5]⟩ :=
  C8_deterministic _ _ _ _ (by simp [get_request_image_bytes, lookupBytes])

/-- C4: for a non-empty payload, an exception raised while decoding the
bytes, or while invoking the model on the preprocessed batch, is caught
by the handler's `try/except` and becomes a 500 whose body carries the
exception's message verbatim.  The handler is a total function into
`HttpResponse`, so no exception can escape it; resizing is total in
this embedding, so decode and model invocation are the two failure
sites. -/
theorem C4_exceptions_to_500 (st : AppState) (deps : PILDeps) (req : Request)
    (W H : Nat) (s : ℚ) (m : String) (img : Img)
    (hv : validPrep st.prep W H s)
    (hne : get_request_image_bytes req ≠ []) :
    (deps.decode (get_request_image_bytes req) = .error m →
      inference st deps req = ⟨500, .obj [("error", .str m)]⟩) ∧
    (deps.decode (get_request_image_bytes req) = .ok img →
      st.model (scaledBatch (deps.resize img W H) s) = .error m →
      inference st deps req = ⟨500, .obj [("error", .str m)]⟩) := by
  constructor
  · intro hdec
    simp [inference, hne, inference_try_eq st deps _ W H s hv,
      preprocess_bytes, hdec, bind, Except.bind]
  · intro hdec hmod
    simp [inference, hne, inference_try_eq st deps _ W H s hv,
      preprocess_bytes, hdec, bind, Except.bind, pure, Except.pure,
      predict_label_from_array, hmod]

theorem C4_exceptions_to_500_witness :
    (inference ⟨exModelOne, exPrep, defaultCard⟩ exDepsErr ⟨[], [1]⟩ =
      ⟨500, .obj [("error", .str "cannot identify image file")]⟩) ∧
    (inference ⟨exModelErr, exPrep, defaultCard⟩ exDeps ⟨[], [1]⟩ =
      ⟨500, .obj [("error", .str "predict blew up")]⟩) :=
  ⟨(C4_exceptions_to_500 ⟨exModelOne, exPrep, defaultCard⟩ exDepsErr ⟨[], [1]⟩
      2 3 2 "cannot identify image file" ⟨1, 1, fun _ _ _ => 6⟩
      ⟨rfl, rfl⟩ (by simp [get_request_image_bytes, lookupBytes])).1 rfl,
   (C4_exceptions_to_500 ⟨exModelErr, exPrep, defaultCard⟩ exDeps ⟨[], [1]⟩
      2 3 2 "predict blew up" ⟨1, 1, fun _ _ _ => 6⟩
      ⟨rfl, rfl⟩ (by simp [get_request_image_bytes, lookupBytes])).2 rfl rfl⟩

/-- C1 (counterexample): with a model whose scalar output is exactly
0.5 and a payload that decodes, the service answers
`{"prediction": "damage"}` — not `"no_damage"` as the claim states for
probabilities at or above the threshold. -/
theorem C1_counterexample :
    inference ⟨exModelHalf, exPrep, defaultCard⟩ exDeps ⟨[], [1]⟩ =
      ⟨200, .obj [("prediction", .str "damage")]⟩ ∧
    ("damage" : String) ≠ "no_damage" := by
  constructor
  · simp [inference, get_request_image_bytes, lookupBytes, inference_try,
      exPrep, Json.getKey, lookupKey, Json.asNat?, preprocess_bytes, exDeps,
      predict_label_from_array, exModelHalf, scaledBatch,
      Except.bind, bind, pure, Except.pure]
  · decide

/-- C1 (amended): the code's polarity is the reverse of the claim's:
for a request that decodes and scores successfully with probability
`prob`, the label is `"damage"` when `prob ≥ 0.5` and `"no_damage"`
when `prob < 0.5`; the inclusive boundary at exactly 0.5 belongs to
`"damage"`. -/
theorem C1_label_polarity (st : AppState) (deps : PILDeps) (req : Request)
    (W H : Nat) (s : ℚ) (img : Img) (prob : ℚ)
    (hv : validPrep st.prep W H s)
    (hne : get_request_image_bytes req ≠ [])
    (hdec : deps.decode (get_request_image_bytes req) = .ok img)
    (hmod : st.model (scaledBatch (deps.resize img W H) s) = .ok prob) :
    ((1 : ℚ)/2 ≤ prob →
      inference st deps req = ⟨200, .obj [("prediction", .str "damage")]⟩) ∧
    (prob < 1/2 →
      inference st deps req = ⟨200, .obj [("prediction", .str "no_damage")]⟩) := by
  have hbase : inference st deps req =
      ⟨200, .obj [("prediction",
        .str (if (1 : ℚ)/2 ≤ prob then "damage" else "no_damage"))]⟩ := by
    simp [inference, hne, inference_try_eq st deps _ W H s hv,
      preprocess_bytes, hdec, bind, Except.bind, pure, Except.pure,
      predict_label_from_array, hmod]
  constructor
  · intro hp
    rw [hbase, if_pos hp]
  · intro hp
    rw [hbase, if_neg (not_le.mpr hp)]

theorem C1_label_polarity_witness :
    (inference ⟨exModelOne, exPrep, defaultCard⟩ exDeps ⟨[], [1]⟩ =
      ⟨200, .obj [("prediction", .str "damage")]⟩) ∧
    (inference ⟨exModelZero, exPrep, defaultCard⟩ exDeps ⟨[], [1]⟩ =
      ⟨200, .obj [("prediction", .str "no_damage")]⟩) :=
  ⟨(C1_label_polarity ⟨exModelOne, exPrep, defaultCard⟩ exDeps ⟨[], [1]⟩
      2 3 2 ⟨1, 1, fun _ _ _ => 6⟩ 1 ⟨rfl, rfl⟩
      (by simp [get_request_image_bytes, lookupBytes]) rfl rfl).1 (by norm_num),
   (C1_label_polarity ⟨exModelZero, exPrep, defaultCard⟩ exDeps ⟨[], [1]⟩
      2 3 2 ⟨1, 1, fun _ _ _ => 6⟩ 0 ⟨rfl, rfl⟩
      (by simp [get_request_image_bytes, lookupBytes]) rfl rfl).2 (by norm_num)⟩

/-- C7: for every validly configured app state whose model card is a
JSON object, `/summary` answers 200 with `input_size = [W, H, 3]`,
`preprocessing.resize = [W, H]`, `preprocessing.scale = s`, and
`classes = ["no_damage", "damage"]` in that order. -/
theorem C7_summary_contract (model : Model) (prep card : Json)
    (W H : Nat) (s : ℚ) (kvs : List (String × Json))
    (hv : validPrep prep W H s) (hc : card = .obj kvs) :
    summary ⟨model, prep, card⟩ = .ok ⟨200, .obj [
      ("model_name", (lookupKey kvs "best_model_name").getD (.str "Unknown")),
      ("test_auc", (lookupKey kvs "test_auc").getD .null),
      ("input_size", .arr [.num (W : ℚ), .num (H : ℚ), .num 3]),
      ("classes", .arr [.str "no_damage", .str "damage"]),
      ("preprocessing", .obj [("resize", .arr [.num (W : ℚ), .num (H : ℚ)]),
                              ("scale", .num s)])]⟩ := by
  obtain ⟨h1, h2⟩ := hv
  simp [summary, h1, h2, hc, Json.dictGet, bind, Except.bind, pure, Except.pure]

theorem C7_summary_contract_witness :
    summary ⟨exModelOne, exPrep, defaultCard⟩ = .ok ⟨200, .obj [
      ("model_name", .str "Unknown"),
      ("test_auc", .null),
      ("input_size", .arr [.num 2, .num 3, .num 3]),
      ("classes", .arr [.str "no_damage", .str "damage"]),
      ("preprocessing", .obj [("resize", .arr [.num 2, .num 3]),
                              ("scale", .num 2)])]⟩ := by
  have h := C7_summary_contract exModelOne exPrep defaultCard 2 3 2
    [("best_model_name", .str "Unknown"), ("test_auc", .null)]
    ⟨rfl, rfl⟩ rfl
  simpa [lookupKey] using h

/-- C5: startup fails with the missing-artifact `FileNotFoundError`
whenever the model file or the preprocessing-config file is absent,
and with the invalid-config `ValueError` whenever the parsed config
lacks `img_size` or `scale`; and whenever `load_artifacts` raises, the
app is never created, so no route of a partially started process can
serve a request. -/
theorem C5_startup_fail_fast (fs : FS) (lm : FileData → Model)
    (paths : Paths) (prep : Json) :
    (fs paths.modelPath = none →
      load_artifacts fs lm paths =
        .error (.fileNotFound ("Missing model at " ++ paths.modelPath))) ∧
    (∀ d, fs paths.modelPath = some d → fs paths.prepPath = none →
      load_artifacts fs lm paths =
        .error (.fileNotFound ("Missing preprocessing.json at " ++ paths.prepPath))) ∧
    (∀ d, fs paths.modelPath = some d →
      fs paths.prepPath = some (.jsonData prep) →
      (prep.getKey "img_size" = none ∨ prep.getKey "scale" = none) →
      load_artifacts fs lm paths =
        .error (.valueError "preprocessing.json must contain 'img_size' and 'scale'")) ∧
    (∀ e, load_artifacts fs lm paths = .error e →
      create_app fs lm paths = .error e) := by
  refine ⟨?_, ?_, ?_, ?_⟩
  · intro h
    simp [load_artifacts, h, throw, throwThe, MonadExceptOf.throw]
  · intro d hm hp
    simp [load_artifacts, hm, hp, throw, throwThe, MonadExceptOf.throw]
  · intro d hm hp hkeys
    rcases hkeys with h | h <;>
      simp [load_artifacts, hm, hp, load_json, h, bind, Except.bind,
        throw, throwThe, MonadExceptOf.throw]
  · intro e h
    simp [create_app, h, Except.map]

theorem C5_startup_fail_fast_witness :
    (load_artifacts fsEmpty exLoadModel exPaths =
      .error (.fileNotFound "Missing model at model.keras")) ∧
    (load_artifacts fsOnlyModel exLoadModel exPaths =
      .error (.fileNotFound "Missing preprocessing.json at preprocessing.json")) ∧
    (load_artifacts fsBadPrepKeys exLoadModel exPaths =
      .error (.valueError "preprocessing.json must contain 'img_size' and 'scale'")) ∧
    (create_app fsEmpty exLoadModel exPaths =
      .error (.fileNotFound "Missing model at model.keras")) :=
  ⟨(C5_startup_fail_fast fsEmpty exLoadModel exPaths (.obj [])).1 rfl,
   (C5_startup_fail_fast fsOnlyModel exLoadModel exPaths (.obj [])).2.1
      .invalidData rfl rfl,
   (C5_startup_fail_fast fsBadPrepKeys exLoadModel exPaths (.obj [])).2.2.1
      .invalidData rfl rfl (Or.inl rfl),
   (C5_startup_fail_fast fsEmpty exLoadModel exPaths (.obj [])).2.2.2 _
      ((C5_startup_fail_fast fsEmpty exLoadModel exPaths (.obj [])).1 rfl)⟩

/-- C2 (counterexample): with the model and a valid preprocessing
config in place but a model-card file whose contents do not parse as
JSON, `_load_json` propagates the `JSONDecodeError` (it catches only
`FileNotFoundError`) and startup aborts — so loading the card is not
fatal-free for every state of the file. -/
theorem C2_counterexample :
    load_artifacts fsBadCard exLoadModel exPaths =
      .error (.jsonDecode "Expecting value: model_card.json") := by
  simp [load_artifacts, fsBadCard, exPaths, load_json, exPrep, Json.getKey,
    lookupKey, bind, Except.bind, pure, Except.pure,
    throw, throwThe, MonadExceptOf.throw]

/-- C2 (amended): when the model and a valid preprocessing config are
in place, an absent model-card file is never fatal and yields the
default card `{"best_model_name": "Unknown", "test_auc": null}`, and a
card file holding any JSON object is likewise never fatal; but a card
file whose contents fail to parse as JSON aborts startup. -/
theorem C2_card_absent_defaults (fs : FS) (lm : FileData → Model)
    (paths : Paths) (prep : Json) (a b sj : Json) (d : FileData)
    (hm : fs paths.modelPath = some d)
    (hp : fs paths.prepPath = some (.jsonData prep))
    (hi : prep.getKey "img_size" = some (.arr [a, b]))
    (hs : prep.getKey "scale" = some sj) :
    (fs paths.cardPath = none →
      load_artifacts fs lm paths = .ok (lm d, prep, defaultCard)) ∧
    (∀ kvs, fs paths.cardPath = some (.jsonData (.obj kvs)) →
      load_artifacts fs lm paths = .ok (lm d, prep, .obj kvs)) := by
  constructor
  · intro hc
    simp [load_artifacts, hm, hp, load_json, hi, hs, hc, defaultCard,
      Json.dictGet, lookupKey, bind, Except.bind, pure, Except.pure]
  · intro kvs hc
    simp [load_artifacts, hm, hp, load_json, hi, hs, hc,
      Json.dictGet, bind, Except.bind, pure, Except.pure]

theorem C2_card_absent_defaults_witness :
    (load_artifacts fsNoCard exLoadModel exPaths =
      .ok (exLoadModel .invalidData, exPrep, defaultCard)) ∧
    (∀ kvs, fsNoCard exPaths.cardPath = some (.jsonData (.obj kvs)) →
      load_artifacts fsNoCard exLoadModel exPaths =
        .ok (exLoadModel .invalidData, exPrep, .obj kvs)) :=
  ⟨(C2_card_absent_defaults fsNoCard exLoadModel exPaths exPrep
      (.num 2) (.num 3) (.num 2) .invalidData rfl rfl rfl rfl).1 rfl,
   (C2_card_absent_defaults fsNoCard exLoadModel exPaths exPrep
      (.num 2) (.num 3) (.num 2) .invalidData rfl rfl rfl rfl).2⟩

/-- C6: for bytes that decode, the batch is the decoded image resized
to the configured width and height with every pixel value multiplied
by `scale`, carried in numpy shape `[1, H, W, 3]`; and when the
decoded image is a 1x1 constant of value `p` (so that resizing keeps
it constant, as every PIL interpolation does on a constant source),
every in-bounds entry of the batch equals `p * scale`.  The
`hres` hypothesis records that PIL's `resize((w, h))` returns an image
of exactly the requested size. -/
theorem C6_preprocess_contract (deps : PILDeps) (raw : Bytes)
    (W H : Nat) (s : ℚ) (img : Img) (p : ℚ)
    (hres : ∀ i w h, (deps.resize i w h).width = w ∧ (deps.resize i w h).height = h)
    (hdec : deps.decode raw = .ok img) :
    preprocess_bytes deps raw W H s = .ok (scaledBatch (deps.resize img W H) s) ∧
    (scaledBatch (deps.resize img W H) s).shape = [1, H, W, 3] ∧
    (∀ row col ch, (scaledBatch (deps.resize img W H) s).val row col ch =
      (deps.resize img W H).pix col row ch * s) ∧
    (img.width = 1 → img.height = 1 → img.isConst p →
     (deps.resize img W H).isConst p →
     ∀ row col ch, row < H → col < W →
       (scaledBatch (deps.resize img W H) s).val row col ch = p * s) := by
  refine ⟨?_, ?_, ?_, ?_⟩
  · simp [preprocess_bytes, hdec, bind, Except.bind, pure, Except.pure]
  · simp [Batch.shape, scaledBatch, (hres img W H).1, (hres img W H).2]
  · intro row col ch
    rfl
  · intro _ _ _ hconst row col ch hrow hcol
    have hpix := hconst col row ch
      (by rw [(hres img W H).1]; exact hcol)
      (by rw [(hres img W H).2]; exact hrow)
    simp [scaledBatch, hpix]

theorem C6_preprocess_contract_witness :
    preprocess_bytes exDeps [1] 2 3 2 =
      .ok (scaledBatch (exDeps.resize ⟨1, 1, fun _ _ _ => 6⟩ 2 3) 2) ∧
    (scaledBatch (exDeps.resize ⟨1, 1, fun _ _ _ => 6⟩ 2 3) 2).shape = [1, 3, 2, 3] ∧
    (∀ row col ch,
      (scaledBatch (exDeps.resize ⟨1, 1, fun _ _ _ => 6⟩ 2 3) 2).val row col ch =
        (exDeps.resize ⟨1, 1, fun _ _ _ => 6⟩ 2 3).pix col row ch * 2) ∧
    (Img.width ⟨1, 1, fun _ _ _ => 6⟩ = 1 → Img.height ⟨1, 1, fun _ _ _ => 6⟩ = 1 →
     Img.isConst ⟨1, 1, fun _ _ _ => 6⟩ 6 →
     Img.isConst (exDeps.resize ⟨1, 1, fun _ _ _ => 6⟩ 2 3) 6 →
     ∀ row col ch, row < 3 → col < 2 →
       (scaledBatch (exDeps.resize ⟨1, 1, fun _ _ _ => 6⟩ 2 3) 2).val row col ch = 6 * 2) :=
  C6_preprocess_contract exDeps [1] 2 3 2 ⟨1, 1, fun _ _ _ => 6⟩ 6
    (fun _ _ _ => ⟨rfl, rfl⟩) rfl

end HurricaneServer
